import Mathlib

/-!
# Rotation & Approval Engine — shallow embedding

A shallow embedding in Lean 4 of the core logic of the
`social_media_bot` repository (`src/main.py`): the fairness selector
(`choose_client_for_slot`), the 4-1-1 category cycler
(`select_template`), the publish de-duplication ledger
(`already_recorded` / `record_published` / `publish_text_for_client`),
the candidate status updates (`update_post_candidate_status`), the
timeout sweep (`run_approval_timeouts`) and the approve/reject API
endpoints (`api_approve_candidate` / `api_reject_candidate`).

External collaborators (SHA-256, Python's string `hash`, the seeded
PRNG, the Jinja template engine, the network publishers) are modelled
as parameters collected in an `Ext` structure; the database tables are
modelled as Lean lists threaded through the operations.
-/

namespace SMB

/-! ## Time model

Python `datetime` values (the repository uses a fixed time zone and
naive wall-clock comparisons) are modelled as calendar records; a
civil-calendar conversion to an absolute second count gives the linear
order used by the SQL comparisons and the `timedelta` arithmetic. -/

structure PyDateTime where
  year : Nat
  month : Nat
  day : Nat
  hour : Nat
  minute : Nat
  second : Nat
deriving DecidableEq, Repr

/-- Days since 1970-01-01 of a civil date (standard civil-calendar
algorithm, proleptic Gregorian; faithful for the years the service
runs in). -/
def daysFromCivil (y m d : Int) : Int :=
  let y' : Int := if m ≤ 2 then y - 1 else y
  let era : Int := (if 0 ≤ y' then y' else y' - 399) / 400
  let yoe : Int := y' - era * 400
  let mp : Int := (m + 9) % 12
  let doy : Int := (153 * mp + 2) / 5 + d - 1
  let doe : Int := yoe * 365 + yoe / 4 - yoe / 100 + doy
  era * 146097 + doe - 719468

/-- Absolute second count of a `PyDateTime`; comparisons between
`datetime` values and `timedelta` arithmetic are carried out on it. -/
def toSec (dt : PyDateTime) : Int :=
  daysFromCivil dt.year dt.month dt.day * 86400
    + dt.hour * 3600 + dt.minute * 60 + dt.second

/-- Embeds `int(now.strftime("%Y%m%d"))`: the day number used to seed the
pseudo-random choices. -/
def dateNum (dt : PyDateTime) : Nat :=
  dt.year * 10000 + dt.month * 100 + dt.day

/-- Embeds `month_bounds` (src/main.py:490-496): start of the month of `dt`
and start of the next month. -/
def month_bounds (dt : PyDateTime) : PyDateTime × PyDateTime :=
  let start : PyDateTime :=
    { dt with day := 1, hour := 0, minute := 0, second := 0 }
  let stop : PyDateTime :=
    if start.month = 12 then
      { start with year := start.year + 1, month := 1 }
    else
      { start with month := start.month + 1 }
  (start, stop)

/-! ## Data model -/

/-- A row of the `published_posts` table (the Ledger). -/
structure LedgerEntry where
  client_id : String
  platform : String
  template_key : String
  text_hash : String
  external_id : Option String
  posted_at : PyDateTime
deriving DecidableEq, Repr

/-- A row of the `post_candidates` table. `platforms` is the decoded
JSON column (`none` mirrors SQL NULL). -/
structure Candidate where
  id : Nat
  client_id : String
  template_key : String
  text_body : String
  media_url : Option String
  slot_time : PyDateTime
  status : String
  platforms : Option (List String)
  rejection_reason : Option String
  created_at : PyDateTime
  updated_at : PyDateTime
deriving DecidableEq, Repr

/-- The per-client attribute map, restricted to the typed fields the
embedded core reads (`Client` properties in src/main.py:280-412 and
the publisher construction). `none` mirrors an absent key. -/
structure Attrs where
  media_approved : Option Bool := none
  opt_out : Option Bool := none
  cooldown_days : Option Int := none
  max_posts_per_month : Option Int := none
  on_approval_timeout : Option String := none
  x_access_token : Option String := none
  facebook_page_token : Option String := none
  hero_image_url : Option String := none
  logo_url : Option String := none
deriving DecidableEq, Repr

/-- The `Client` dataclass (src/main.py:280-285). -/
structure Client where
  id : String
  name : String
  industry : String
  city : String
  attributes : Attrs
deriving DecidableEq, Repr

/-- Python truthiness of an optional string (`None` and `""` are
falsy). -/
def pyTruthyStr : Option String → Bool
  | none => false
  | some s => !(s = "")

/-- Embeds Python `a or b` on optional strings with a mandatory fallback. -/
def pyOrStr (a : Option String) (b : String) : String :=
  match a with
  | none => b
  | some s => if s = "" then b else s

/-- Embeds Python `a or b` on two optional strings. -/
def pyOrOpt (a b : Option String) : Option String :=
  if pyTruthyStr a then a else b

/-- System-wide configuration constants read from the environment. -/
structure Config where
  COOLDOWN_DAYS : Int
  PER_CLIENT_MONTHLY_CAP : Int
  ENABLE_X : Bool
  FALLBACK_IMAGE_URL : Option String
deriving Repr

/-- Embeds `Client.media_approved` (default `True`). -/
def Client.media_approved (c : Client) : Bool :=
  c.attributes.media_approved.getD true

/-- Embeds `Client.opt_out` (default `False`). -/
def Client.opt_out (c : Client) : Bool :=
  c.attributes.opt_out.getD false

/-- Embeds `Client.cooldown_days` (per-client override or `COOLDOWN_DAYS`). -/
def Client.cooldown_days (cfg : Config) (c : Client) : Int :=
  c.attributes.cooldown_days.getD cfg.COOLDOWN_DAYS

/-- Embeds `Client.max_posts_per_month` (per-client override or
`PER_CLIENT_MONTHLY_CAP`). -/
def Client.max_posts_per_month (cfg : Config) (c : Client) : Int :=
  c.attributes.max_posts_per_month.getD cfg.PER_CLIENT_MONTHLY_CAP

/-- A template from the catalog (`load_templates` entries). -/
structure Template where
  key : String
  category : String
  platforms : List String
  text : String
deriving DecidableEq, Repr

/-- A `PublishResult` as returned by a publisher's `publish`. -/
structure PubRes where
  platform : String
  ext_id : Option String
  text : String
deriving DecidableEq, Repr

/-- One observed call to a platform publisher (the effect trace of
`pub.publish(text_body, media_url)`). -/
structure PubCall where
  platform : String
  text : String
  media_url : Option String
deriving DecidableEq, Repr

/-- External collaborators, modelled as pure parameters:
`sha256hex` is `hashlib.sha256(..).hexdigest()`; `pyHash` is Python's
per-process string `hash`; `pick` models the seeded
`random.Random(seed).choice` index; `shuffleL` models the seeded
`random.Random(seed).shuffle`; `publishId` is the external id a
platform returns for a publish; `render` is the Jinja template
engine. -/
structure Ext where
  sha256hex : String → String
  pyHash : String → Nat
  pick : Nat → Nat → Nat
  shuffleL : Nat → List Client → List Client
  publishId : String → String → Option String
  render : String → Client → String

/-- The mutable persisted state the embedded operations touch:
the ledger, the candidate table, and the trace of publisher calls
made so far. -/
structure State where
  candidates : List Candidate
  ledger : List LedgerEntry
  calls : List PubCall
deriving DecidableEq, Repr

/-! ## Ledger reads -/

/-- Embeds `already_recorded` (src/main.py:502-509): is there a ledger row
with this `(client_id, platform, text_hash)`? -/
def already_recorded (ext : Ext) (ledger : List LedgerEntry)
    (client_id platform text_body : String) : Bool :=
  let th := ext.sha256hex text_body
  ledger.any fun e =>
    e.client_id = client_id && e.platform = platform && e.text_hash = th

/-- Embeds `already_posted_recently` (src/main.py:1050-1057): is there a
ledger row for this client with `posted_at >= now - cooldown_days`? -/
def already_posted_recently (ledger : List LedgerEntry)
    (now : PyDateTime) (client_id : String) (cooldown_days : Int) : Bool :=
  let cutoff : Int := toSec now - cooldown_days * 86400
  ledger.any fun e => e.client_id = client_id && cutoff ≤ toSec e.posted_at

/-- Embeds `monthly_count` (src/main.py:1059-1069): ledger rows for the
client with `posted_at` in `[monthStart, monthEnd)` of `when`. -/
def monthly_count (ledger : List LedgerEntry)
    (client_id : String) (when : PyDateTime) : Nat :=
  let b := month_bounds when
  (ledger.filter fun e =>
    e.client_id = client_id
      && toSec b.1 ≤ toSec e.posted_at
      && toSec e.posted_at < toSec b.2).length

/-! ## Category cycler -/

/-- Newest-first insertion for the `ORDER BY posted_at DESC` read. -/
def insertDesc (e : LedgerEntry) : List LedgerEntry → List LedgerEntry
  | [] => [e]
  | x :: xs =>
      if toSec x.posted_at ≤ toSec e.posted_at then e :: x :: xs
      else x :: insertDesc e xs

/-- Embeds `recent_template_keys` (src/main.py:871-887): the most recent
template keys used for this client, newest first, up to `limit`. -/
def recent_template_keys (ledger : List LedgerEntry)
    (client_id : String) (limit : Nat) : List String :=
  let rows := ((ledger.filter fun e => e.client_id = client_id).foldr
    insertDesc []).take limit
  rows.map (·.template_key)

/-- The 4-1-1 cycle target (src/main.py:899-906): the category for a
given monthly post count. -/
def target_category (monthly_count : Nat) : String :=
  let cycle_index := monthly_count % 6
  if cycle_index = 4 then "soft_sell"
  else if cycle_index = 5 then "hard_sell"
  else "educational"

/-- Embeds `random.Random(seed).choice(pool)`: a deterministic element of a
non-empty pool, `none` on the empty pool (where Python raises). -/
def pyChoice {α : Type} (pick : Nat → Nat → Nat) (seed : Nat)
    (pool : List α) : Option α :=
  if pool.isEmpty then none
  else pool.get? (pick seed pool.length % pool.length)

/-- The seed of the final template choice
(src/main.py:927): `int(now.strftime("%Y%m%d")) ^ hash(client.id)`. -/
def templateSeed (ext : Ext) (now : PyDateTime) (c : Client) : Nat :=
  dateNum now ^^^ ext.pyHash c.id

/-- Embeds `select_template` (src/main.py:890-929): the 4-1-1 category
cycler. Filters the catalog to the target category (falling back to
the full catalog), drops the last three recently used keys when
alternatives exist, and makes a seeded deterministic choice. -/
def select_template (ext : Ext) (ledger : List LedgerEntry)
    (now : PyDateTime) (templates : List Template) (client : Client)
    (monthly_count : Nat) : Option Template :=
  let cands0 := templates.filter fun t => t.category = target_category monthly_count
  let candidates := if cands0.isEmpty then templates else cands0
  let recent_keys := recent_template_keys ledger client.id 8
  let recent_avoid := recent_keys.take 3
  let fresh := candidates.filter fun t => !(recent_avoid.contains t.key)
  let pool := if fresh.isEmpty then candidates else fresh
  pyChoice ext.pick (templateSeed ext now client) pool

/-! ## Fairness selector -/

/-- Minimum of a non-empty list of counts (Python `min`). -/
def listMinNat (l : List Nat) : Nat :=
  l.foldr Nat.min (l.headD 0)

/-- The eligibility loop of `choose_client_for_slot`
(src/main.py:1234-1242): keep clients that are not opted out, have
media consent, and pass the cooldown check as the source writes it
(clients are kept only when `already_posted_recently` is true). -/
def eligibleClients (cfg : Config) (ledger : List LedgerEntry)
    (now : PyDateTime) (clients : List Client) : List Client :=
  clients.filter fun c =>
    !c.opt_out && c.media_approved
      && already_posted_recently ledger now c.id (c.cooldown_days cfg)

/-- The monthly-cap filter of `choose_client_for_slot`
(src/main.py:1249-1252): keep eligible clients whose monthly count is
strictly below their cap. -/
def capOkClients (cfg : Config) (ledger : List LedgerEntry)
    (now : PyDateTime) (eligible : List Client) : List Client :=
  eligible.filter fun c =>
    (monthly_count ledger c.id now : Int) < c.max_posts_per_month cfg

/-- Embeds `choose_client_for_slot` (src/main.py:1230-1263): eligibility
filter (opt-out, consent, cooldown check as written in the source),
monthly-cap filter, lowest-count shortlist, seeded shuffle, first
element. -/
def choose_client_for_slot (cfg : Config) (ext : Ext)
    (ledger : List LedgerEntry) (now : PyDateTime)
    (clients : List Client) : Option Client :=
  let eligible := eligibleClients cfg ledger now clients
  if eligible.isEmpty then none
  else
    let pool := capOkClients cfg ledger now eligible
    if pool.isEmpty then none
    else
      let min_c := listMinNat
        (pool.map fun c => monthly_count ledger c.id now)
      let shortlist := pool.filter fun c =>
        monthly_count ledger c.id now = min_c
      (ext.shuffleL (dateNum now) shortlist).head?

/-! ## Publish pipeline -/

/-- Embeds `build_publishers` (src/main.py:1032-1045), as the list of
platform names: the console publisher always, X when enabled and the
client holds a token, Facebook when the client holds a page token. -/
def build_publishers (cfg : Config) (c : Client) : List String :=
  ["console"]
    ++ (if cfg.ENABLE_X && pyTruthyStr c.attributes.x_access_token
        then ["x"] else [])
    ++ (if pyTruthyStr c.attributes.facebook_page_token
        then ["facebook"] else [])

/-- Embeds `record_published` (src/main.py:1267-1273): append a ledger row
hashing the text body. -/
def record_published (ext : Ext) (ledger : List LedgerEntry)
    (client_id platform template_key text_body : String)
    (external_id : Option String) (now : PyDateTime) : List LedgerEntry :=
  ledger ++ [{ client_id := client_id, platform := platform,
               template_key := template_key,
               text_hash := ext.sha256hex text_body,
               external_id := external_id, posted_at := now }]

/-- Python truthiness of the `platforms` argument (`None` or `[]` are
falsy). -/
def platformsFalsy : Option (List String) → Bool
  | none => true
  | some l => l.isEmpty

/-- One iteration of the publisher loop of `publish_text_for_client`
(src/main.py:1277-1287) for the platform `pf`, threading results,
ledger and the publish-call trace. -/
def ptfcStep (ext : Ext) (c : Client) (text_body : String)
    (media_url : Option String) (template_key : String)
    (platforms : Option (List String)) (record_state : Bool)
    (now : PyDateTime)
    (acc : List PubRes × List LedgerEntry × List PubCall)
    (pf : String) : List PubRes × List LedgerEntry × List PubCall :=
  let (results, ledger, calls) := acc
  if pf = "console" || platformsFalsy platforms
      || (platforms.getD []).contains pf then
    if record_state && already_recorded ext ledger c.id pf text_body then
      (results, ledger, calls)
    else
      let res : PubRes :=
        { platform := pf, ext_id := ext.publishId pf text_body,
          text := text_body }
      let calls' := calls ++ [{ platform := pf, text := text_body,
                                media_url := media_url }]
      let ledger' :=
        if record_state then
          record_published ext ledger c.id pf template_key text_body
            res.ext_id now
        else ledger
      (results ++ [res], ledger', calls')
  else (results, ledger, calls)

/-- Embeds `publish_text_for_client` (src/main.py:1275-1288): loop over the
client's publishers, skipping platforms already recorded in the
ledger for this exact text, publishing and recording the rest. -/
def publish_text_for_client (cfg : Config) (ext : Ext) (c : Client)
    (text_body : String) (media_url : Option String)
    (template_key : String) (platforms : Option (List String))
    (record_state : Bool) (ledger : List LedgerEntry)
    (calls : List PubCall) (now : PyDateTime) :
    List PubRes × List LedgerEntry × List PubCall :=
  (build_publishers cfg c).foldl
    (ptfcStep ext c text_body media_url template_key platforms
      record_state now)
    ([], ledger, calls)

/-- Embeds `publish_once` (src/main.py:1290-1299): fresh category-cycle pick
for the client, render, choose media, publish. An empty catalog makes
`select_template` fail (Python raises; callers catch), modelled as no
effect. -/
def publish_once (cfg : Config) (ext : Ext) (templates : List Template)
    (c : Client) (record_state : Bool) (ledger : List LedgerEntry)
    (calls : List PubCall) (now : PyDateTime) :
    List PubRes × List LedgerEntry × List PubCall :=
  let current_count := monthly_count ledger c.id now
  match select_template ext ledger now templates c current_count with
  | none => ([], ledger, calls)
  | some tpl =>
      let text_body := ext.render tpl.text c
      let media_url : Option String :=
        pyOrOpt c.attributes.hero_image_url
          (pyOrOpt c.attributes.logo_url cfg.FALLBACK_IMAGE_URL)
      publish_text_for_client cfg ext c text_body media_url
        tpl.key (some tpl.platforms) record_state ledger calls now

/-! ## Candidate status updates -/

/-- Embeds `update_post_candidate_status` (src/main.py:705-725): set
`status`, set `rejection_reason` to
`COALESCE(:rr, rejection_reason)`, advance `updated_at`, on the row
with the given id. -/
def update_post_candidate_status (cands : List Candidate)
    (candidate_id : Nat) (status : String)
    (rejection_reason : Option String) (now : PyDateTime) :
    List Candidate :=
  cands.map fun c =>
    if c.id = candidate_id then
      { c with
        status := status,
        rejection_reason :=
          match rejection_reason with
          | some r => some r
          | none => c.rejection_reason,
        updated_at := now }
    else c

/-! ## Timeout sweep -/

/-- ASCII lowercasing (Python `str.lower` on the ASCII policy
strings), written structurally so concrete instances evaluate. -/
def lowerAscii (s : String) : String :=
  String.mk (s.data.map Char.toLower)

/-- The timeout policy read in the sweep (src/main.py:1362):
`(client.attributes.get("on_approval_timeout") or "auto_post").lower()`. -/
def timeoutMode (c : Client) : String :=
  lowerAscii (pyOrStr c.attributes.on_approval_timeout "auto_post")

/-- The per-row body of the sweep loop (src/main.py:1354-1398):
resolve one overdue PENDING candidate per the owning client's timeout
policy. -/
def sweepStep (cfg : Config) (ext : Ext) (templates : List Template)
    (clients : List Client) (now : PyDateTime) (st : State)
    (row : Candidate) : State :=
  match clients.find? (fun c => c.id = row.client_id) with
  | none =>
      let cands1 := update_post_candidate_status st.candidates row.id
        "TIMEOUT" none now
      { st with candidates := cands1 }
  | some client =>
      let mode := timeoutMode client
      let platforms := row.platforms.getD []
      if mode = "auto_cancel" then
        let cands1 := update_post_candidate_status st.candidates row.id
          "TIMEOUT" none now
        { st with candidates := cands1 }
      else if mode = "fallback" then
        let cands1 := update_post_candidate_status st.candidates row.id
          "TIMEOUT" none now
        let out := publish_once cfg ext templates client true st.ledger
          st.calls now
        { candidates := cands1, ledger := out.2.1, calls := out.2.2 }
      else
        let out := publish_text_for_client cfg ext client row.text_body
          row.media_url row.template_key (some platforms) true
          st.ledger st.calls now
        let cands1 := update_post_candidate_status st.candidates row.id
          "APPROVED" none now
        { candidates := cands1, ledger := out.2.1, calls := out.2.2 }

/-- Embeds `run_approval_timeouts` (src/main.py:1327-1398): select the
PENDING candidates whose `slot_time` is at most
`now - grace_minutes`, then resolve each per the owning client's
timeout policy. -/
def run_approval_timeouts (cfg : Config) (ext : Ext)
    (templates : List Template) (clients : List Client)
    (grace_minutes : Int) (now : PyDateTime) (st : State) : State :=
  let cutoff : Int := toSec now - grace_minutes * 60
  let rows := st.candidates.filter fun c =>
    c.status = "PENDING" && toSec c.slot_time ≤ cutoff
  if rows.isEmpty then st
  else rows.foldl (sweepStep cfg ext templates clients now) st

/-! ## Approve / reject endpoints -/

/-- Embeds `api_approve_candidate` (src/main.py:2055-2078): look the
candidate and its client up, publish the candidate's text to the
client's platforms with ledger recording, then set the status to
APPROVED. The boolean mirrors the HTTP outcome (`False` for the 404
paths). -/
def api_approve_candidate (cfg : Config) (ext : Ext)
    (clients : List Client) (candidate_id : Nat) (now : PyDateTime)
    (st : State) : State × Bool :=
  match st.candidates.find? (fun c => c.id = candidate_id) with
  | none => (st, false)
  | some cand =>
      match clients.find? (fun c => c.id = cand.client_id) with
      | none => (st, false)
      | some client =>
          let out := publish_text_for_client cfg ext client
            cand.text_body cand.media_url cand.template_key
            (some (cand.platforms.getD [])) true st.ledger st.calls now
          let cands1 := update_post_candidate_status st.candidates
            candidate_id "APPROVED" none now
          ({ candidates := cands1, ledger := out.2.1,
             calls := out.2.2 }, true)

/-- Embeds `api_reject_candidate` (src/main.py:2080-2085): set the status to
REJECTED with the payload's reason; no lookup, no guard. -/
def api_reject_candidate (candidate_id : Nat) (reason : Option String)
    (now : PyDateTime) (st : State) : State :=
  let cands1 := update_post_candidate_status st.candidates candidate_id
    "REJECTED" reason now
  { st with candidates := cands1 }

/-! ## Concrete fixtures used by witnesses and counterexamples -/

/-- A trivial instantiation of the external collaborators: identity
hash, constant Python hash, first-element PRNG pick, identity
shuffle, offline publishers, identity renderer. -/
def extId : Ext where
  sha256hex := fun s => s
  pyHash := fun _ => 0
  pick := fun _ _ => 0
  shuffleL := fun _ l => l
  publishId := fun _ _ => none
  render := fun t _ => t

/-- The default configuration (env defaults: cooldown 3 days, monthly
cap 12, X disabled, no fallback image). -/
def cfg0 : Config where
  COOLDOWN_DAYS := 3
  PER_CLIENT_MONTHLY_CAP := 12
  ENABLE_X := false
  FALLBACK_IMAGE_URL := none

def now0 : PyDateTime := ⟨2025, 10, 12, 12, 0, 0⟩

def hourAgo0 : PyDateTime := ⟨2025, 10, 12, 11, 0, 0⟩

def oldSlot0 : PyDateTime := ⟨2025, 10, 12, 9, 0, 0⟩

def clientA : Client :=
  { id := "alpha", name := "Alpha", industry := "Fitness",
    city := "Cape Town", attributes := {} }

def tpl0 : Template :=
  { key := "edu_tip", category := "educational",
    platforms := ["x", "facebook"], text := "tip text" }

def hardTpl : Template :=
  { key := "hard_offer", category := "hard_sell",
    platforms := ["x"], text := "buy now" }

/-! ## Supporting lemmas -/

/-- On a non-empty pool, the seeded choice returns an element of the
pool. -/
theorem pyChoice_mem {α : Type} (pick : Nat → Nat → Nat) (seed : Nat)
    (pool : List α) (h : pool ≠ []) :
    ∃ t, pyChoice pick seed pool = some t ∧ t ∈ pool := by
  have hlen : 0 < pool.length := List.length_pos.mpr h
  have hne : pool.isEmpty = false := by
    simp [List.isEmpty_iff, h]
  have hidx : pick seed pool.length % pool.length < pool.length :=
    Nat.mod_lt _ hlen
  refine ⟨pool.get ⟨_, hidx⟩, ?_, List.get_mem pool _ hidx⟩
  simp [pyChoice, hne, List.get?_eq_get hidx]

/-- The target category is unchanged by reducing the count mod 6. -/
theorem target_category_mod (n : Nat) :
    target_category (n % 6) = target_category n := by
  have h : n % 6 % 6 = n % 6 := Nat.mod_mod_of_dvd n dvd_rfl
  simp [target_category, h]

/-! ## Claim theorems -/

/-- C6: the category targeted by `select_template` is determined by
the monthly count mod 6 — residues 0–3 give educational, 4 gives
soft_sell, 5 gives hard_sell — the cycle is exactly periodic with
period 6 (counts 0..7 give edu, edu, edu, edu, soft, hard, edu, edu),
and the whole template selection is 6-periodic in the monthly
count. -/
theorem c6_category_cycle_period_six :
    (∀ k : Nat,
      target_category (6 * k) = "educational"
      ∧ target_category (6 * k + 1) = "educational"
      ∧ target_category (6 * k + 2) = "educational"
      ∧ target_category (6 * k + 3) = "educational"
      ∧ target_category (6 * k + 4) = "soft_sell"
      ∧ target_category (6 * k + 5) = "hard_sell")
    ∧ (List.range 8).map target_category
        = ["educational", "educational", "educational", "educational",
           "soft_sell", "hard_sell", "educational", "educational"]
    ∧ (∀ (ext : Ext) (ledger : List LedgerEntry) (now : PyDateTime)
        (templates : List Template) (client : Client) (n : Nat),
        select_template ext ledger now templates client n
          = select_template ext ledger now templates client (n % 6)) := by
  refine ⟨?_, by decide, ?_⟩
  · intro k
    have h0 : (6 * k) % 6 = 0 := by omega
    have h1 : (6 * k + 1) % 6 = 1 := by omega
    have h2 : (6 * k + 2) % 6 = 2 := by omega
    have h3 : (6 * k + 3) % 6 = 3 := by omega
    have h4 : (6 * k + 4) % 6 = 4 := by omega
    have h5 : (6 * k + 5) % 6 = 5 := by omega
    exact ⟨by simp [target_category, h0], by simp [target_category, h1],
      by simp [target_category, h2], by simp [target_category, h3],
      by simp [target_category, h4], by simp [target_category, h5]⟩
  · intro ext ledger now templates client n
    simp [select_template, target_category_mod]

/-- C7: when the catalog is non-empty but holds no template of the
target category, `select_template` still returns some template from
the full catalog. -/
theorem c7_missing_category_falls_back (ext : Ext)
    (ledger : List LedgerEntry) (now : PyDateTime)
    (templates : List Template) (client : Client) (n : Nat)
    (hne : templates ≠ [])
    (hmiss : templates.filter
      (fun t => t.category = target_category n) = []) :
    ∃ t, select_template ext ledger now templates client n = some t
      ∧ t ∈ templates := by
  unfold select_template
  rw [hmiss]
  simp only [List.isEmpty_nil, if_true]
  set avoid := (recent_template_keys ledger client.id 8).take 3 with havd
  by_cases hf : (templates.filter
      fun t => !(avoid.contains t.key)).isEmpty
  · rw [if_pos hf]
    exact pyChoice_mem _ _ _ hne
  · rw [if_neg hf]
    obtain ⟨t, ht, hmem⟩ := pyChoice_mem ext.pick
      (templateSeed ext now client)
      (templates.filter fun t => !(avoid.contains t.key))
      (by simpa [List.isEmpty_iff] using hf)
    exact ⟨t, ht, (List.mem_filter.mp hmem).1⟩

/-- C7 witness: a catalog holding only the hard_sell template
`hard_offer`, with monthly count 0 (target category educational),
yields the hard_sell template rather than failing. -/
theorem c7_missing_category_falls_back_witness :
    ([hardTpl].filter (fun t => t.category = target_category 0)) = []
    ∧ select_template extId [] now0 [hardTpl] clientA 0
        = some hardTpl := by
  refine ⟨by decide, ?_⟩
  obtain ⟨t, ht, hmem⟩ := c7_missing_category_falls_back extId [] now0
    [hardTpl] clientA 0 (by decide) (by decide)
  have heq : t = hardTpl := by simpa using hmem
  rw [ht, heq]

/-- C9: the template choice is deterministic per (day, tenant): two
calls with equal day numbers and otherwise equal inputs agree, and the
seed separates tenants whose Python string hashes differ, so distinct
tenants can diverge on the same day. -/
theorem c9_template_choice_deterministic_per_day :
    (∀ (ext : Ext) (ledger : List LedgerEntry) (now1 now2 : PyDateTime)
      (templates : List Template) (client : Client) (n : Nat),
      dateNum now1 = dateNum now2 →
      select_template ext ledger now1 templates client n
        = select_template ext ledger now2 templates client n)
    ∧ (∀ (ext : Ext) (now : PyDateTime) (c1 c2 : Client),
      ext.pyHash c1.id ≠ ext.pyHash c2.id →
      templateSeed ext now c1 ≠ templateSeed ext now c2) := by
  constructor
  · intro ext ledger now1 now2 templates client n h
    unfold select_template templateSeed
    rw [h]
  · intro ext now c1 c2 hne heq
    apply hne
    have h1 : dateNum now ^^^ (dateNum now ^^^ ext.pyHash c1.id)
        = ext.pyHash c1.id := by
      rw [← Nat.xor_assoc, Nat.xor_self, Nat.zero_xor]
    have h2 : dateNum now ^^^ (dateNum now ^^^ ext.pyHash c2.id)
        = ext.pyHash c2.id := by
      rw [← Nat.xor_assoc, Nat.xor_self, Nat.zero_xor]
    unfold templateSeed at heq
    rw [← h1, ← h2, heq]

/-- C9 witness: two calls on the same calendar day (09:00 and 17:30)
with the same tenant, catalog and history return the same template. -/
theorem c9_template_choice_deterministic_per_day_witness :
    dateNum oldSlot0 = dateNum now0
    ∧ select_template extId [] oldSlot0 [tpl0, hardTpl] clientA 1
        = select_template extId [] now0 [tpl0, hardTpl] clientA 1 :=
  ⟨rfl, c9_template_choice_deterministic_per_day.1 extId [] oldSlot0 now0
    [tpl0, hardTpl] clientA 1 rfl⟩

/-- C10: a status update passing no rejection reason rewrites only
`status` and `updated_at`: it equals the pointwise record update that
leaves `rejection_reason` (and every other field) unchanged, and the
stored reasons are preserved across it. -/
theorem c10_none_reason_preserves_rejection_reason
    (cands : List Candidate) (i : Nat) (status : String)
    (now : PyDateTime) :
    update_post_candidate_status cands i status none now
      = cands.map (fun c =>
          if c.id = i then { c with status := status, updated_at := now }
          else c)
    ∧ (update_post_candidate_status cands i status none now).map
        (·.rejection_reason) = cands.map (·.rejection_reason) := by
  constructor
  · rfl
  · simp only [update_post_candidate_status, List.map_map]
    apply List.map_congr_left
    intro c _
    by_cases h : c.id = i <;> simp [h]

/-- C5: whenever the slot selector returns a tenant, that tenant's
current-calendar-month ledger count is strictly below its monthly cap
(per-tenant override or system default); and when no tenant survives
the eligibility and cap filters the selector returns none. The
shuffle hypothesis says the modelled seeded shuffle returns elements
of its input. -/
theorem c5_selector_respects_monthly_cap (cfg : Config) (ext : Ext)
    (ledger : List LedgerEntry) (now : PyDateTime)
    (clients : List Client)
    (hsh : ∀ (s : Nat) (l : List Client) (x : Client),
      x ∈ ext.shuffleL s l → x ∈ l) :
    (∀ c, choose_client_for_slot cfg ext ledger now clients = some c →
      (monthly_count ledger c.id now : Int) < c.max_posts_per_month cfg)
    ∧ (capOkClients cfg ledger now
          (eligibleClients cfg ledger now clients) = [] →
        choose_client_for_slot cfg ext ledger now clients = none) := by
  constructor
  · intro c hc
    unfold choose_client_for_slot at hc
    by_cases h1 : (eligibleClients cfg ledger now clients).isEmpty
    · rw [if_pos h1] at hc
      exact absurd hc (by simp)
    · rw [if_neg h1] at hc
      by_cases h2 : (capOkClients cfg ledger now
          (eligibleClients cfg ledger now clients)).isEmpty
      · rw [if_pos h2] at hc
        exact absurd hc (by simp)
      · rw [if_neg h2] at hc
        have hmem := hsh _ _ _ (List.mem_of_mem_head? hc)
        have hpool := (List.mem_filter.mp hmem).1
        have := (List.mem_filter.mp hpool).2
        simpa [capOkClients] using this
  · intro hempty
    unfold choose_client_for_slot
    by_cases h1 : (eligibleClients cfg ledger now clients).isEmpty
    · rw [if_pos h1]
    · rw [if_neg h1, hempty]
      simp

def ledgerC5 : List LedgerEntry :=
  [{ client_id := "alpha", platform := "console",
     template_key := "edu_tip", text_hash := "h1",
     external_id := none, posted_at := hourAgo0 }]

/-- C5 witness: with one client holding one ledger entry this month,
the selector returns it and its monthly count 1 is below the cap
12. -/
theorem c5_selector_respects_monthly_cap_witness :
    choose_client_for_slot cfg0 extId ledgerC5 now0 [clientA]
        = some clientA
    ∧ (monthly_count ledgerC5 clientA.id now0 : Int)
        < clientA.max_posts_per_month cfg0 :=
  ⟨rfl,
    (c5_selector_respects_monthly_cap cfg0 extId ledgerC5 now0 [clientA]
      (fun _ _ _ h => h)).1 clientA rfl⟩

def clientFresh : Client :=
  { id := "fresh", name := "Fresh", industry := "Dental",
    city := "Sandton", attributes := {} }

def ledgerC1 : List LedgerEntry :=
  [{ client_id := "alpha", platform := "console",
     template_key := "edu_tip", text_hash := "h1",
     external_id := none, posted_at := hourAgo0 }]

/-- C1: the cooldown filter of `choose_client_for_slot` is inverted
relative to both the spec and the source's own NOTE comment. A tenant
whose last ledger entry lies one hour before now (well inside the
3-day default cooldown) is returned by the selector, while a fresh
tenant with no ledger entry at all — never blocked by any cooldown —
is filtered out and the selector returns none. -/
theorem c1_cooldown_filter_inverted :
    already_posted_recently ledgerC1 now0 "alpha" 3 = true
    ∧ choose_client_for_slot cfg0 extId ledgerC1 now0 [clientA]
        = some clientA
    ∧ already_posted_recently [] now0 "fresh" 3 = false
    ∧ choose_client_for_slot cfg0 extId [] now0 [clientFresh] = none := by
  exact ⟨rfl, rfl, rfl, rfl⟩

/-- Ledger rows belonging to a given (tenant, platform) pair. -/
def forPlatform (client_id platform : String) (e : LedgerEntry) : Bool :=
  e.client_id = client_id && e.platform = platform

/-- A ledger append preserves an `already_recorded` fact. -/
theorem already_recorded_mono (ext : Ext) (l : List LedgerEntry)
    (e : LedgerEntry) (cid pf body : String)
    (h : already_recorded ext l cid pf body = true) :
    already_recorded ext (l ++ [e]) cid pf body = true := by
  simp only [already_recorded, List.any_append] at h ⊢
  rw [h]
  rfl

/-- Recording a publish on platform `pf` adds no row for a different
platform `p`. -/
theorem record_published_filter_ne (ext : Ext) (l : List LedgerEntry)
    (cid pf tk body : String) (eid : Option String) (now : PyDateTime)
    (cid2 p : String) (hne : pf ≠ p) :
    (record_published ext l cid pf tk body eid now).filter
        (forPlatform cid2 p)
      = l.filter (forPlatform cid2 p) := by
  simp [record_published, forPlatform, List.filter_append, hne]

/-- Fold invariant of the publisher loop: once the ledger records
(tenant, platform `p`, this text), the loop never publishes to `p`
again and never appends a ledger row for (tenant, `p`). -/
theorem ptfc_fold_dedup (ext : Ext) (c : Client) (body : String)
    (mu : Option String) (tk : String)
    (platforms : Option (List String)) (now : PyDateTime) (p : String)
    (pfs : List String) :
    ∀ (results : List PubRes) (ledger : List LedgerEntry)
      (calls : List PubCall),
      already_recorded ext ledger c.id p body = true →
      already_recorded ext
          (pfs.foldl (ptfcStep ext c body mu tk platforms true now)
            (results, ledger, calls)).2.1 c.id p body = true
      ∧ (pfs.foldl (ptfcStep ext c body mu tk platforms true now)
            (results, ledger, calls)).2.1.filter (forPlatform c.id p)
          = ledger.filter (forPlatform c.id p)
      ∧ ∀ call ∈ (pfs.foldl (ptfcStep ext c body mu tk platforms true now)
            (results, ledger, calls)).2.2,
          call ∈ calls ∨ call.platform ≠ p := by
  induction pfs with
  | nil =>
      intro results ledger calls h
      exact ⟨h, rfl, fun call hc => Or.inl hc⟩
  | cons pf pfs ih =>
      intro results ledger calls h
      rw [List.foldl_cons]
      by_cases hsend : (pf = "console" || platformsFalsy platforms
          || (platforms.getD []).contains pf) = true
      · by_cases hrec2 : already_recorded ext ledger c.id pf body = true
        · have hstep : ptfcStep ext c body mu tk platforms true now
              (results, ledger, calls) pf = (results, ledger, calls) := by
            simp [ptfcStep, hsend, hrec2]
          rw [hstep]
          exact ih results ledger calls h
        · have hpf : pf ≠ p := fun he => hrec2 (he ▸ h)
          have hrec2' : already_recorded ext ledger c.id pf body
              = false := by
            simpa using hrec2
          have hstep : ptfcStep ext c body mu tk platforms true now
              (results, ledger, calls) pf
              = (results ++ [{ platform := pf,
                               ext_id := ext.publishId pf body,
                               text := body }],
                record_published ext ledger c.id pf tk body
                  (ext.publishId pf body) now,
                calls ++ [{ platform := pf, text := body,
                            media_url := mu }]) := by
            simp only [ptfcStep]
            rw [if_pos hsend]
            simp [hrec2']
          rw [hstep]
          have h' : already_recorded ext
              (record_published ext ledger c.id pf tk body
                (ext.publishId pf body) now) c.id p body = true :=
            already_recorded_mono ext ledger _ c.id p body h
          obtain ⟨ha, hb, hcalls⟩ := ih _ _ _ h'
          refine ⟨ha, ?_, ?_⟩
          · rw [hb]
            exact record_published_filter_ne ext ledger c.id pf tk body
              _ now c.id p hpf
          · intro call hc
            rcases hcalls call hc with hmem | hne
            · rcases List.mem_append.mp hmem with h1 | h2
              · exact Or.inl h1
              · simp only [List.mem_singleton] at h2
                subst h2
                exact Or.inr hpf
            · exact Or.inr hne
      · have hstep : ptfcStep ext c body mu tk platforms true now
            (results, ledger, calls) pf = (results, ledger, calls) := by
          simp only [ptfcStep]
          rw [if_neg (by simpa using hsend)]
        rw [hstep]
        exact ih results ledger calls h

/-- C4: when the ledger already holds (tenant, platform, hash of the
text), `publish_text_for_client` with `record_state` makes no publish
call to that platform and appends no ledger row for that (tenant,
platform). -/
theorem c4_ledger_dedup_blocks_republish (cfg : Config) (ext : Ext)
    (c : Client) (body : String) (mu : Option String) (tk : String)
    (platforms : Option (List String)) (ledger : List LedgerEntry)
    (calls : List PubCall) (now : PyDateTime) (p : String)
    (hrec : already_recorded ext ledger c.id p body = true) :
    (∀ call ∈ (publish_text_for_client cfg ext c body mu tk platforms
        true ledger calls now).2.2, call ∈ calls ∨ call.platform ≠ p)
    ∧ (publish_text_for_client cfg ext c body mu tk platforms
        true ledger calls now).2.1.filter (forPlatform c.id p)
      = ledger.filter (forPlatform c.id p) := by
  have h := ptfc_fold_dedup ext c body mu tk platforms now p
    (build_publishers cfg c) [] ledger calls hrec
  exact ⟨h.2.2, h.2.1⟩

def ledgerC4 : List LedgerEntry :=
  [{ client_id := "alpha", platform := "console",
     template_key := "edu_tip", text_hash := "hello post",
     external_id := none, posted_at := hourAgo0 }]

/-- C4 witness: a ledger already holding the console row for this
exact text blocks the republish — no publish call is made and the
console rows of the ledger are unchanged. -/
theorem c4_ledger_dedup_blocks_republish_witness :
    already_recorded extId ledgerC4 clientA.id "console" "hello post"
        = true
    ∧ (publish_text_for_client cfg0 extId clientA "hello post"
        none "edu_tip" none true ledgerC4 [] now0).2.2 = []
    ∧ (publish_text_for_client cfg0 extId clientA "hello post"
        none "edu_tip" none true ledgerC4 [] now0).2.1.filter
          (forPlatform clientA.id "console")
      = ledgerC4.filter (forPlatform clientA.id "console") :=
  ⟨rfl, by decide,
    (c4_ledger_dedup_blocks_republish cfg0 extId clientA "hello post"
      none "edu_tip" none ledgerC4 [] now0 "console" rfl).2⟩

/-- A status update with no reason leaves every stored rejection
reason unchanged. -/
theorem update_none_preserves_reasons (cands : List Candidate)
    (i : Nat) (status : String) (now : PyDateTime) :
    (update_post_candidate_status cands i status none now).map
        (·.rejection_reason)
      = cands.map (·.rejection_reason) := by
  simp only [update_post_candidate_status, List.map_map]
  apply List.map_congr_left
  intro c _
  by_cases h : c.id = i <;> simp [h]

/-- After a status update, every row carrying the updated id holds the
new status. -/
theorem update_status_mem (cands : List Candidate) (i : Nat)
    (status : String) (rr : Option String) (now : PyDateTime) :
    ∀ d ∈ update_post_candidate_status cands i status rr now,
      d.id = i → d.status = status := by
  intro d hd hdi
  simp only [update_post_candidate_status, List.mem_map] at hd
  obtain ⟨c0, _, hdc⟩ := hd
  by_cases h : c0.id = i
  · rw [← hdc]
    simp [h]
  · rw [← hdc] at hdi
    rw [if_neg h] at hdi
    exact absurd hdi h

/-- A status update never changes the number of candidate rows. -/
theorem update_status_length (cands : List Candidate) (i : Nat)
    (status : String) (rr : Option String) (now : PyDateTime) :
    (update_post_candidate_status cands i status rr now).length
      = cands.length := by
  simp [update_post_candidate_status]

def candR : Candidate :=
  { id := 1, client_id := "alpha", template_key := "edu_tip",
    text_body := "hello", media_url := none, slot_time := oldSlot0,
    status := "REJECTED", platforms := some [],
    rejection_reason := some "too salesy", created_at := oldSlot0,
    updated_at := oldSlot0 }

def stC2 : State := { candidates := [candR], ledger := [], calls := [] }

/-- C2 counterexample: a candidate already in the terminal status
REJECTED is re-transitioned by the approve endpoint — its status
becomes APPROVED and a publish call is made — so a decide call on a
terminal candidate is not a no-op. -/
theorem c2_approve_on_rejected_not_noop :
    candR.status = "REJECTED"
    ∧ ((api_approve_candidate cfg0 extId [clientA] 1 now0
        stC2).1.candidates.map (·.status)) = ["APPROVED"]
    ∧ (api_approve_candidate cfg0 extId [clientA] 1 now0 stC2).1.calls
        = [{ platform := "console", text := "hello",
             media_url := none }] :=
  ⟨rfl, rfl, rfl⟩

/-- C2 (amended): `api_approve_candidate` carries no stale-decision
guard: on any stored candidate whose client exists it publishes
(subject only to the per-platform ledger dedup) and overwrites the
status to APPROVED regardless of the prior status, while a passed
reason of `none` leaves the stored rejection reasons unchanged. -/
theorem c2_decide_overwrites_terminal_status (cfg : Config) (ext : Ext)
    (clients : List Client) (cid : Nat) (now : PyDateTime) (st : State)
    (cand : Candidate) (client : Client)
    (hfind : st.candidates.find? (fun c => c.id = cid) = some cand)
    (hcl : clients.find? (fun c => c.id = cand.client_id)
      = some client) :
    (api_approve_candidate cfg ext clients cid now st).2 = true
    ∧ (api_approve_candidate cfg ext clients cid now st).1.candidates
        = update_post_candidate_status st.candidates cid "APPROVED"
            none now
    ∧ (api_approve_candidate cfg ext clients cid now
        st).1.candidates.map (·.rejection_reason)
        = st.candidates.map (·.rejection_reason)
    ∧ ∀ d ∈ (api_approve_candidate cfg ext clients cid now
        st).1.candidates, d.id = cid → d.status = "APPROVED" := by
  refine ⟨?_, ?_, ?_, ?_⟩
  · simp only [api_approve_candidate, hfind, hcl]
  · simp only [api_approve_candidate, hfind, hcl]
  · simp only [api_approve_candidate, hfind, hcl]
    exact update_none_preserves_reasons _ _ _ _
  · simp only [api_approve_candidate, hfind, hcl]
    exact update_status_mem _ _ _ _ _

/-- C2 witness: the amended statement applied to the stored REJECTED
candidate and its client. -/
theorem c2_decide_overwrites_terminal_status_witness :
    (api_approve_candidate cfg0 extId [clientA] 1 now0 stC2).2 = true
    ∧ (api_approve_candidate cfg0 extId [clientA] 1 now0
        stC2).1.candidates
        = update_post_candidate_status stC2.candidates 1 "APPROVED"
            none now0
    ∧ (api_approve_candidate cfg0 extId [clientA] 1 now0
        stC2).1.candidates.map (·.rejection_reason)
        = stC2.candidates.map (·.rejection_reason) :=
  ⟨(c2_decide_overwrites_terminal_status cfg0 extId [clientA] 1 now0
      stC2 candR clientA rfl rfl).1,
    (c2_decide_overwrites_terminal_status cfg0 extId [clientA] 1 now0
      stC2 candR clientA rfl rfl).2.1,
    (c2_decide_overwrites_terminal_status cfg0 extId [clientA] 1 now0
      stC2 candR clientA rfl rfl).2.2.1⟩

def clientFB : Client :=
  { id := "fb", name := "FbClient", industry := "Retail",
    city := "Durban",
    attributes := { on_approval_timeout := some "fallback" } }

def candP3 : Candidate :=
  { id := 7, client_id := "fb", template_key := "edu_tip",
    text_body := "draft body", media_url := none,
    slot_time := oldSlot0, status := "PENDING",
    platforms := some ["x"], rejection_reason := none,
    created_at := oldSlot0, updated_at := oldSlot0 }

def stC3 : State := { candidates := [candP3], ledger := [], calls := [] }

/-- C3 counterexample: under the `fallback` policy the sweep marks the
overdue candidate TIMEOUT and publishes directly via `publish_once`,
but creates no new candidate row at all — the table still holds
exactly one row, none of which is APPROVED — refuting the claim that
exactly one new APPROVED candidate row is created. -/
theorem c3_fallback_creates_no_candidate :
    (run_approval_timeouts cfg0 extId [tpl0] [clientFB] 10 now0
        stC3).candidates.map (·.status) = ["TIMEOUT"]
    ∧ (run_approval_timeouts cfg0 extId [tpl0] [clientFB] 10 now0
        stC3).candidates.length = stC3.candidates.length
    ∧ (run_approval_timeouts cfg0 extId [tpl0] [clientFB] 10 now0
        stC3).candidates.filter (fun d => d.status = "APPROVED") = []
    ∧ (run_approval_timeouts cfg0 extId [tpl0] [clientFB] 10 now0
        stC3).calls
        = [{ platform := "console", text := "tip text",
             media_url := none }] :=
  ⟨by decide, by decide, by decide, by decide⟩

/-- C3 (amended): for a sole overdue PENDING candidate whose tenant's
timeout policy is `fallback`, the sweep marks it TIMEOUT and performs
a direct fallback publish via `publish_once` for the same tenant; it
creates no new candidate row (the candidate count is unchanged), so
no new APPROVED candidate row results. -/
theorem c3_fallback_marks_timeout_publishes_directly (cfg : Config)
    (ext : Ext) (templates : List Template) (clients : List Client)
    (grace : Int) (now : PyDateTime) (st : State) (c : Candidate)
    (cl : Client)
    (hrows : st.candidates.filter (fun d =>
      d.status = "PENDING"
        && toSec d.slot_time ≤ toSec now - grace * 60) = [c])
    (hcl : clients.find? (fun x => x.id = c.client_id) = some cl)
    (hmode : timeoutMode cl = "fallback") :
    (run_approval_timeouts cfg ext templates clients grace now
        st).candidates
        = update_post_candidate_status st.candidates c.id "TIMEOUT"
            none now
    ∧ (run_approval_timeouts cfg ext templates clients grace now
        st).candidates.length = st.candidates.length
    ∧ (run_approval_timeouts cfg ext templates clients grace now
        st).ledger
        = (publish_once cfg ext templates cl true st.ledger st.calls
            now).2.1
    ∧ (run_approval_timeouts cfg ext templates clients grace now
        st).calls
        = (publish_once cfg ext templates cl true st.ledger st.calls
            now).2.2
    ∧ ∀ d ∈ (run_approval_timeouts cfg ext templates clients grace now
        st).candidates, d.id = c.id → d.status = "TIMEOUT" := by
  have hred : run_approval_timeouts cfg ext templates clients grace now
      st
      = { candidates :=
            update_post_candidate_status st.candidates c.id "TIMEOUT"
              none now,
          ledger := (publish_once cfg ext templates cl true st.ledger
            st.calls now).2.1,
          calls := (publish_once cfg ext templates cl true st.ledger
            st.calls now).2.2 } := by
    simp only [run_approval_timeouts]
    rw [hrows]
    rw [if_neg (by simp)]
    simp only [List.foldl_cons, List.foldl_nil]
    simp only [sweepStep, hcl]
    rw [hmode]
    rw [if_neg (by decide)]
    rw [if_pos (by decide)]
  rw [hred]
  dsimp only
  exact ⟨rfl, update_status_length _ _ _ _ _, rfl, rfl,
    update_status_mem _ _ _ _ _⟩

/-- C3 witness: the amended statement applied to the concrete fallback
state. -/
theorem c3_fallback_marks_timeout_publishes_directly_witness :
    (run_approval_timeouts cfg0 extId [tpl0] [clientFB] 10 now0
        stC3).candidates
        = update_post_candidate_status stC3.candidates candP3.id
            "TIMEOUT" none now0
    ∧ (run_approval_timeouts cfg0 extId [tpl0] [clientFB] 10 now0
        stC3).candidates.length = stC3.candidates.length
    ∧ (run_approval_timeouts cfg0 extId [tpl0] [clientFB] 10 now0
        stC3).ledger
        = (publish_once cfg0 extId [tpl0] clientFB true stC3.ledger
            stC3.calls now0).2.1
    ∧ (run_approval_timeouts cfg0 extId [tpl0] [clientFB] 10 now0
        stC3).calls
        = (publish_once cfg0 extId [tpl0] clientFB true stC3.ledger
            stC3.calls now0).2.2 :=
  ⟨(c3_fallback_marks_timeout_publishes_directly cfg0 extId [tpl0]
      [clientFB] 10 now0 stC3 candP3 clientFB (by decide) (by decide)
      (by decide)).1,
    (c3_fallback_marks_timeout_publishes_directly cfg0 extId [tpl0]
      [clientFB] 10 now0 stC3 candP3 clientFB (by decide) (by decide)
      (by decide)).2.1,
    (c3_fallback_marks_timeout_publishes_directly cfg0 extId [tpl0]
      [clientFB] 10 now0 stC3 candP3 clientFB (by decide) (by decide)
      (by decide)).2.2.1,
    (c3_fallback_marks_timeout_publishes_directly cfg0 extId [tpl0]
      [clientFB] 10 now0 stC3 candP3 clientFB (by decide) (by decide)
      (by decide)).2.2.2.1⟩

def clientAC : Client :=
  { id := "ac", name := "AcClient", industry := "Retail",
    city := "Pretoria",
    attributes := { on_approval_timeout := some "auto_cancel" } }

def candP8 : Candidate :=
  { id := 8, client_id := "ac", template_key := "edu_tip",
    text_body := "draft body", media_url := none,
    slot_time := oldSlot0, status := "PENDING",
    platforms := some ["x"], rejection_reason := none,
    created_at := oldSlot0, updated_at := oldSlot0 }

def stC8 : State := { candidates := [candP8], ledger := [], calls := [] }

/-- C8: for a sole overdue PENDING candidate whose tenant's timeout
policy is `auto_cancel`, the sweep sets its status to TIMEOUT and
performs no publish call and no ledger write. -/
theorem c8_auto_cancel_no_publish (cfg : Config) (ext : Ext)
    (templates : List Template) (clients : List Client) (grace : Int)
    (now : PyDateTime) (st : State) (c : Candidate) (cl : Client)
    (hrows : st.candidates.filter (fun d =>
      d.status = "PENDING"
        && toSec d.slot_time ≤ toSec now - grace * 60) = [c])
    (hcl : clients.find? (fun x => x.id = c.client_id) = some cl)
    (hmode : timeoutMode cl = "auto_cancel") :
    (run_approval_timeouts cfg ext templates clients grace now
        st).candidates
        = update_post_candidate_status st.candidates c.id "TIMEOUT"
            none now
    ∧ (run_approval_timeouts cfg ext templates clients grace now
        st).ledger = st.ledger
    ∧ (run_approval_timeouts cfg ext templates clients grace now
        st).calls = st.calls
    ∧ ∀ d ∈ (run_approval_timeouts cfg ext templates clients grace now
        st).candidates, d.id = c.id → d.status = "TIMEOUT" := by
  have hred : run_approval_timeouts cfg ext templates clients grace now
      st
      = { candidates :=
            update_post_candidate_status st.candidates c.id "TIMEOUT"
              none now,
          ledger := st.ledger, calls := st.calls } := by
    simp only [run_approval_timeouts]
    rw [hrows]
    rw [if_neg (by simp)]
    simp only [List.foldl_cons, List.foldl_nil]
    simp only [sweepStep, hcl]
    rw [hmode]
    rw [if_pos (by decide)]
  rw [hred]
  dsimp only
  exact ⟨rfl, rfl, rfl, update_status_mem _ _ _ _ _⟩

/-- C8 witness: the statement applied to the concrete auto_cancel
state — the candidate is marked TIMEOUT, the ledger and the publish
trace are untouched. -/
theorem c8_auto_cancel_no_publish_witness :
    (run_approval_timeouts cfg0 extId [tpl0] [clientAC] 10 now0
        stC8).candidates
        = update_post_candidate_status stC8.candidates candP8.id
            "TIMEOUT" none now0
    ∧ (run_approval_timeouts cfg0 extId [tpl0] [clientAC] 10 now0
        stC8).ledger = stC8.ledger
    ∧ (run_approval_timeouts cfg0 extId [tpl0] [clientAC] 10 now0
        stC8).calls = stC8.calls :=
  ⟨(c8_auto_cancel_no_publish cfg0 extId [tpl0] [clientAC] 10 now0 stC8
      candP8 clientAC (by decide) (by decide) (by decide)).1,
    (c8_auto_cancel_no_publish cfg0 extId [tpl0] [clientAC] 10 now0 stC8
      candP8 clientAC (by decide) (by decide) (by decide)).2.1,
    (c8_auto_cancel_no_publish cfg0 extId [tpl0] [clientAC] 10 now0 stC8
      candP8 clientAC (by decide) (by decide) (by decide)).2.2.1⟩

end SMB
